import Mathlib

/-!
Shallow embedding of the manga reader's windowed prefetch and virtualization
engine (src/src/bin/client.rs).

Modelling conventions:
* Image bytes (`Vec<u8>`) are abstracted by the page index whose bytes they
  are: the server answers a request for page `n` with `assets/images/n.jpg`,
  so a buffer cell holding `n : Nat` stands for the bytes of page `n`.
* `usize` arithmetic is `Nat`; every Rust `-` that can underflow is embedded
  as `checkedSub`, returning `none` where the Rust subtraction panics
  (debug overflow check).  A Rust range `a..b` with `a > b` is empty without
  panicking, so loop iteration counts use truncated `Nat` subtraction.
* A panicking `unwrap ()` on a `None` option, and a panicking overflow, make
  the whole operation return `none`.
* The scroll offset reaches the mapper as `viewport.absolute_offset().y as
  usize`; the mapper is embedded on that truncated `Nat` value.
-/

/-- BUFFER_LENGTH from client.rs line 16: the window capacity W. -/
def BUFFER_LENGTH : Nat := 3

/-- Rust `usize` subtraction with the debug overflow check: `none` models the
panic on underflow. -/
def checkedSub (a b : Nat) : Option Nat :=
  if b ≤ a then some (a - b) else none

/-- ForeAndAft from client.rs lines 35-40: the scroll direction tag carried by
a fetch completion. -/
inductive ForeAndAft
  | fore
  | middle
  | aft
deriving DecidableEq, Repr

/-- Page from client.rs lines 43-47: which view is shown. -/
inductive Page
  | info
  | image
deriving DecidableEq, Repr

/-- MangaInfo, the metadata message of the manga proto (server.rs lines
17-26 / protos): only `pages` matters to the core algorithm. -/
structure MangaInfo where
  id : Nat
  english_name : String
  japanese_name : String
  cover : List Nat
  tags : List String
  artists : List String
  pages : Nat
  uploaded : String
deriving Repr

/-- Message from client.rs lines 50-61 (the `GetClient` payload, a connection
handle, is abstracted to `Unit`). -/
inductive Message
  | getClient
  | getInfo (info : MangaInfo)
  | getImage (currentNumber : Nat) (foreAndAft : ForeAndAft) (image : Nat)
  | changePage (page : Page)
  | changeImage (number : Nat)

/-- MangaReader from client.rs lines 64-72: the application state.  The
`VecDeque` buffer is a list, front first. -/
structure ReaderState where
  currentPage : Page
  client : Option Unit
  info : Option MangaInfo
  imageBuffer : List Nat
  imageHeight : Nat
  currentImageNumber : Nat
  currentNumber : Nat
deriving Repr

/-- MangaReader::new (client.rs lines 80-98): the initial state. -/
def newState : ReaderState where
  currentPage := .info
  client := none
  info := none
  imageBuffer := []
  imageHeight := 1764
  currentImageNumber := 0
  currentNumber := 0

/-- the Message::GetImage arm of MangaReader::update (client.rs lines
136-156): a fetch completion mutates the window buffer according to its
direction tag and moves `current_image_number` to the completed fetch's
candidate index. -/
def applyGetImage (s : ReaderState) (currentNumber : Nat) (foreAndAft : ForeAndAft)
    (image : Nat) : ReaderState :=
  let buffer :=
    match foreAndAft with
    | .fore => image :: s.imageBuffer.dropLast
    | .middle => s.imageBuffer ++ [image]
    | .aft => s.imageBuffer.tail ++ [image]
  { s with imageBuffer := buffer, currentImageNumber := currentNumber }

/-- Decision abstracts the `Command` value the ChangeImage arm returns:
either no work, or one fetch paired with the buffer side it will mutate
(`fetchForward` pairs with the `Aft` eviction, `fetchBackward` with `Fore`). -/
inductive Decision
  | noOp
  | fetchForward (target : Nat)
  | fetchBackward (target : Nat)
deriving DecidableEq, Repr

/-- the Message::ChangeImage arm of MangaReader::update (client.rs lines
161-185).  `none` models a panic: `info.unwrap()` / `client.unwrap()` on
`None`, or underflow of `pages - 1` / `pages - 2` in the range guards.
Note the two anchors: the early-return equality test reads
`current_number` (updated immediately), while the direction guards read
`current_image_number` (updated only by a fetch completion). -/
def changeImage (s : ReaderState) (number : Nat) : Option (ReaderState × Decision) :=
  if number = s.currentNumber then
    some (s, .noOp)
  else
    match s.info, s.client with
    | some info, some _ =>
      let s' := { s with currentNumber := number }
      let pages := info.pages
      if s.currentImageNumber < number then
        match checkedSub pages 1 with
        | none => none
        | some hi =>
          if 2 ≤ number ∧ number < hi then
            some (s', .fetchForward (number + BUFFER_LENGTH / 2))
          else
            some (s', .noOp)
      else if number < s.currentImageNumber then
        match checkedSub pages 2 with
        | none => none
        | some hi =>
          if 1 ≤ number ∧ number < hi then
            match checkedSub number (BUFFER_LENGTH / 2) with
            | none => none
            | some target => some (s', .fetchBackward target)
          else
            some (s', .noOp)
      else
        some (s', .noOp)
    | _, _ => none

/-- a renderable slot of the composed view: a fixed-height spacer, a
fixed-height image, or the shrink placeholder shown before the initial fill
completes. -/
inductive Slot
  | spacer (height : Nat)
  | image (content : Nat) (height : Nat)
  | placeholder
deriving DecidableEq, Repr

/-- display height of a slot (the shrink placeholder has no fixed height). -/
def Slot.height : Slot → Nat
  | .spacer h => h
  | .image _ h => h
  | .placeholder => 0

/-- make_space from client.rs lines 338-340. -/
def make_space (height : Nat) : Slot :=
  Slot.spacer height

/-- make_image from client.rs lines 342-351: `buffer.get(index).unwrap()`,
so an out-of-range index is a panic (`none`). -/
def make_image (buffer : List Nat) (index : Nat) (height : Nat) : Option Slot :=
  (buffer.get? index).map fun content => Slot.image content height

/-- the image loop shared by all three branches of image_page (client.rs
lines 287-291, 300-304, 310-314): one image slot per buffer position
`0..BUFFER_LENGTH`. -/
def make_images (buffer : List Nat) (height : Nat) : Option (List Slot) :=
  (List.range BUFFER_LENGTH).mapM fun index => make_image buffer index height

/-- the slot list built by image_page (client.rs lines 271-336), the View
Composer.  `none` models a panic: `info.unwrap()` on `None`, underflow of
`pages - (BUFFER_LENGTH / 2)` or `pages - BUFFER_LENGTH` in the near-end
branch, or an out-of-range buffer access.  Loop counts coming from Rust
ranges (`BUFFER_LENGTH..pages`, `(number + 2)..pages`) use truncated
subtraction because an inverted Rust range is empty, not a panic. -/
def image_page (s : ReaderState) : Option (List Slot) :=
  if s.imageBuffer.length < BUFFER_LENGTH then
    some [Slot.placeholder]
  else
    match s.info with
    | none => none
    | some info =>
      let pages := info.pages
      let number := s.currentImageNumber
      if number < BUFFER_LENGTH / 2 then
        match make_images s.imageBuffer s.imageHeight with
        | none => none
        | some images =>
          some (images ++ List.replicate (pages - BUFFER_LENGTH) (make_space s.imageHeight))
      else
        match checkedSub pages (BUFFER_LENGTH / 2) with
        | none => none
        | some lo =>
          if lo ≤ number ∧ number < pages then
            match checkedSub pages BUFFER_LENGTH with
            | none => none
            | some lead =>
              match make_images s.imageBuffer s.imageHeight with
              | none => none
              | some images =>
                some (List.replicate lead (make_space s.imageHeight) ++ images)
          else
            match checkedSub number (BUFFER_LENGTH / 2) with
            | none => none
            | some lead =>
              match make_images s.imageBuffer s.imageHeight with
              | none => none
              | some images =>
                some (List.replicate lead (make_space s.imageHeight) ++ images ++
                  List.replicate (pages - (number + (BUFFER_LENGTH / 2 + 1)))
                    (make_space s.imageHeight))

/-- the on_scroll closure of image_page (client.rs lines 323-332), the
Scroll Mapper: `y` is the scroll offset truncated to `usize`. -/
def on_scroll (y : Nat) (imageHeight : Nat) : Nat :=
  if y = 0 then 0 else y / imageHeight

/-- get_manga_image (client.rs lines 199-221): one RPC for page `number`,
then `.unwrap()` on the result.  `remote` is the Remote Page Source
(server.rs `get_manga_image`): `none` is a failed fetch (missing backing
file), on which the unwrap panics and no message is ever produced. -/
def get_manga_image (remote : Nat → Option Nat) (currentNumber : Nat) (number : Nat)
    (foreAndAft : ForeAndAft) : Option Message :=
  (remote number).map fun image => Message.getImage currentNumber foreAndAft image

/-- delivery of one fetch: run get_manga_image and, if it produced a
completion message, apply the Message::GetImage arm to the state.  A failed
fetch is fatal to the operation: `none`, and no successor state exists. -/
def run_fetch (s : ReaderState) (remote : Nat → Option Nat) (currentNumber : Nat)
    (number : Nat) (foreAndAft : ForeAndAft) : Option ReaderState :=
  match get_manga_image remote currentNumber number foreAndAft with
  | some (Message.getImage c f i) => some (applyGetImage s c f i)
  | _ => none

/-- metadata record whose descriptive fields are empty: only `pages`
matters to the engine. -/
def mkInfo (pages : Nat) : MangaInfo where
  id := 0
  english_name := ""
  japanese_name := ""
  cover := []
  tags := []
  artists := []
  pages := pages
  uploaded := ""

/-- state after the session start: GetClient stores the connection and
issues the metadata fetch plus BUFFER_LENGTH image fetches for indices
0,1,2 with `current_number = 0` and tag Middle (client.rs lines 106-131);
their completions arrive in issue order, filling the buffer with pages
0,1,2. -/
def initState (pages : Nat) : ReaderState :=
  let s0 := { newState with client := some () }
  let s1 := { s0 with info := some (mkInfo pages) }
  let s2 := applyGetImage s1 0 .middle 0
  let s3 := applyGetImage s2 0 .middle 1
  applyGetImage s3 0 .middle 2

/-- completion of the single fetch a ChangeImage decision issued: a forward
fetch arrives tagged Aft, a backward fetch tagged Fore, and the fetched
bytes are those of the target page. -/
def completeFetch (s : ReaderState) (candidate : Nat) : Decision → ReaderState
  | .noOp => s
  | .fetchForward target => applyGetImage s candidate .aft target
  | .fetchBackward target => applyGetImage s candidate .fore target

/-- one scroll event followed by the completion of the fetch it issued (if
any): the ChangeImage arm, then the GetImage arm for its decision. -/
def scrollStep (s : ReaderState) (candidate : Nat) : Option ReaderState :=
  (changeImage s candidate).map fun sd => completeFetch sd.1 candidate sd.2

/-- a sequence of scroll events, each fetch completing before the next
event. -/
def scrollRun (s : ReaderState) (candidates : List Nat) : Option ReaderState :=
  candidates.foldlM scrollStep s

/-- checkedSub succeeds exactly like Rust subtraction without underflow. -/
theorem checkedSub_of_le {a b : Nat} (h : b ≤ a) : checkedSub a b = some (a - b) := by
  unfold checkedSub
  rw [if_pos h]

/-- half of the window capacity, the composer's and controller's margin. -/
theorem half_buffer : BUFFER_LENGTH / 2 = 1 := rfl

/-- make_images on a full three-element buffer: one image slot per page. -/
theorem make_images_three (a b c h : Nat) :
    make_images [a, b, c] h =
      some [Slot.image a h, Slot.image b h, Slot.image c h] := rfl

/-- total height of a run of spacers. -/
theorem spacer_sum (n h : Nat) :
    ((List.replicate n (make_space h)).map Slot.height).sum = n * h := by
  simp [List.map_replicate, List.sum_replicate, make_space, Slot.height, smul_eq_mul]


/-- C7: the Scroll Mapper returns index 0 at offset 0 and floor(offset /
page_height) otherwise, and is monotone in the offset for every positive
page height. -/
theorem on_scroll_zero_floor_monotone (imageHeight y1 y2 : Nat)
    (_hpos : 0 < imageHeight) (hle : y1 ≤ y2) :
    on_scroll 0 imageHeight = 0 ∧
    (y1 ≠ 0 → on_scroll y1 imageHeight = y1 / imageHeight) ∧
    on_scroll y1 imageHeight ≤ on_scroll y2 imageHeight := by
  refine ⟨rfl, fun h => by simp [on_scroll, h], ?_⟩
  unfold on_scroll
  split
  · simp
  · next h1 =>
    rw [if_neg (by omega : ¬ y2 = 0)]
    exact Nat.div_le_div_right hle

/-- instance of on_scroll_zero_floor_monotone at height 1764 and offsets
100 ≤ 5000. -/
theorem on_scroll_zero_floor_monotone_witness :
    on_scroll 0 1764 = 0 ∧
    ((100:Nat) ≠ 0 → on_scroll 100 1764 = 100 / 1764) ∧
    on_scroll 100 1764 ≤ on_scroll 5000 1764 :=
  on_scroll_zero_floor_monotone 1764 100 5000 (by decide) (by decide)

/-- C8: a failed page fetch is fatal to the operation that requested it:
the unwrap panics, no completion message is produced, and no successor
state (hence no window mutation, retry, or fallback content) exists. -/
theorem run_fetch_failure_fatal (s : ReaderState) (remote : Nat → Option Nat)
    (currentNumber number : Nat) (foreAndAft : ForeAndAft)
    (hfail : remote number = none) :
    run_fetch s remote currentNumber number foreAndAft = none := by
  unfold run_fetch get_manga_image
  rw [hfail]
  rfl

/-- instance of run_fetch_failure_fatal with an always-failing remote. -/
theorem run_fetch_failure_fatal_witness :
    run_fetch newState (fun _ => none) 0 4 ForeAndAft.aft = none :=
  run_fetch_failure_fatal newState (fun _ => none) 0 4 ForeAndAft.aft rfl

/-- C9: a scroll event whose candidate differs from current_number panics
(unwraps None) when the metadata or the connection is not yet present. -/
theorem changeImage_unready_panics (s : ReaderState) (number : Nat)
    (hne : number ≠ s.currentNumber) (hmiss : s.info = none ∨ s.client = none) :
    changeImage s number = none := by
  unfold changeImage
  rw [if_neg hne]
  rcases hmiss with h | h
  · rw [h]
  · rw [h]
    cases s.info <;> rfl

/-- instance of changeImage_unready_panics on the fresh state, whose
info and client are both absent. -/
theorem changeImage_unready_panics_witness :
    changeImage newState 1 = none :=
  changeImage_unready_panics newState 1 (by decide) (Or.inl rfl)

/-- refutation of C2 as stated: with page_count 10 and anchor 0, candidate 8
lies outside the spec's forward guard [2, page_count - 2) = [2, 8), yet the
code issues FetchForward(9), not NoOp: the implemented guard is
[2, page_count - 1). -/
theorem changeImage_forward_guard_cex :
    (initState 10).currentImageNumber = 0 ∧
    ¬ (8 < 10 - 2) ∧
    (changeImage (initState 10) 8).map Prod.snd = some (Decision.fetchForward 9) ∧
    Decision.fetchForward 9 ≠ Decision.noOp := by
  refine ⟨rfl, by decide, rfl, by decide⟩

/-- refutation of C3 as stated: with page_count 10 and anchor 9, candidate 7
lies outside the spec's backward guard [1, page_count - 3) = [1, 7), yet the
code issues FetchBackward(6), not NoOp: the implemented guard is
[1, page_count - 2). -/
theorem changeImage_backward_guard_cex :
    ({ initState 10 with currentImageNumber := 9, currentNumber := 9 } :
        ReaderState).currentImageNumber = 9 ∧
    ¬ (7 < 10 - 3) ∧
    (changeImage { initState 10 with currentImageNumber := 9, currentNumber := 9 } 7).map
        Prod.snd = some (Decision.fetchBackward 6) ∧
    Decision.fetchBackward 6 ≠ Decision.noOp := by
  refine ⟨rfl, by decide, rfl, by decide⟩

/-- refutation of C4 as stated: with page_count 20 after the initial fill of
pages 0,1,2, a single scroll event to candidate 5 issues one forward fetch
(target 6) whose completion leaves the buffer holding pages 1,2,6 — not the
contiguous 4,5,6 the claim names. -/
theorem window_jump_noncontiguous_cex :
    (scrollRun (initState 20) [5]).map ReaderState.imageBuffer = some [1, 2, 6] ∧
    ([1, 2, 6] : List Nat) ≠ [4, 5, 6] ∧
    ¬ ((1:Nat) + 1 = 2 ∧ (2:Nat) + 1 = 6) := by
  refine ⟨rfl, by decide, by decide⟩

/-- C4 amended: a forward (Aft) completion drops the buffer front and
appends the fetched content, a backward (Fore) completion drops the back and
prepends it, so one advance shifts a contiguous span {a, a+1, a+2} by
exactly one index exactly when the fetched page is the adjacent one; and the
buffer reaches the span {4, 5, 6} of the claim's scenario only under
unit-step candidates: with page_count 20 after initial fill, scrolling
through candidates 1,2,3,4,5 with each fetch completing before the next
event leaves the buffer holding pages 4,5,6. -/
theorem window_advance_contiguity :
    (∀ (s : ReaderState) (a candidate : Nat),
        s.imageBuffer = [a, a + 1, a + 2] →
        (applyGetImage s candidate ForeAndAft.aft (a + 3)).imageBuffer
          = [a + 1, a + 2, a + 3]) ∧
    (∀ (s : ReaderState) (a candidate : Nat),
        s.imageBuffer = [a + 1, a + 2, a + 3] →
        (applyGetImage s candidate ForeAndAft.fore a).imageBuffer
          = [a, a + 1, a + 2]) ∧
    (scrollRun (initState 20) [1, 2, 3, 4, 5]).map ReaderState.imageBuffer
      = some [4, 5, 6] := by
  refine ⟨?_, ?_, rfl⟩
  · intro s a candidate hbuf
    simp [applyGetImage, hbuf]
  · intro s a candidate hbuf
    simp [applyGetImage, hbuf]

/-- instance of window_advance_contiguity: one forward advance on a buffer
holding pages 7,8,9 with fetched page 10 yields 8,9,10. -/
theorem window_advance_contiguity_witness :
    (applyGetImage { newState with imageBuffer := [7, 8, 9] } 8 ForeAndAft.aft
        (7 + 3)).imageBuffer = [7 + 1, 7 + 2, 7 + 3] :=
  window_advance_contiguity.1 { newState with imageBuffer := [7, 8, 9] } 7 8 rfl

/-- every successful ChangeImage sets current_number to the candidate. -/
theorem changeImage_currentNumber {s : ReaderState} {number : Nat}
    {s' : ReaderState} {d : Decision}
    (h : changeImage s number = some (s', d)) :
    s'.currentNumber = number := by
  simp only [changeImage] at h
  split at h
  · next heq =>
    simp only [Option.some.injEq, Prod.mk.injEq] at h
    rw [← h.1, ← heq]
  · split at h
    · repeat' split at h
      all_goals simp_all
      all_goals rw [← h.1]
    · simp_all

/-- no ChangeImage touches current_image_number: only a fetch completion
(the GetImage arm) moves it. -/
theorem changeImage_currentImageNumber {s : ReaderState} {number : Nat}
    {s' : ReaderState} {d : Decision}
    (h : changeImage s number = some (s', d)) :
    s'.currentImageNumber = s.currentImageNumber := by
  simp only [changeImage] at h
  split at h
  · simp only [Option.some.injEq, Prod.mk.injEq] at h
    rw [← h.1]
  · split at h
    · repeat' split at h
      all_goals simp_all
      all_goals rw [← h.1]
    · simp_all

/-- refutation of C5 as stated: from the freshly filled page_count-20 state,
a scroll to candidate 5 issues a forward fetch; a second scroll to
candidate 3 arriving before that fetch completes is judged FORWARD
(3 > current_image_number = 0, yielding FetchForward(4)), although against
the new candidate 5 the motion 3 < 5 would be backward (FetchBackward(2)):
the direction rules compare against the fetch-completion anchor, not the
immediately updated candidate. -/
theorem anchor_direction_stale_cex :
    ((changeImage (initState 20) 5).bind fun sd => changeImage sd.1 3).map Prod.snd
      = some (Decision.fetchForward 4) ∧
    Decision.fetchForward 4 ≠ Decision.fetchBackward 2 := by
  refine ⟨rfl, by decide⟩

/-- C5 amended: a successful ChangeImage immediately sets current_number to
the candidate — so the equality rule of a second scroll event compares
against the new candidate — but leaves current_image_number untouched, and
only a fetch completion (the GetImage arm) moves current_image_number to
that fetch's candidate; the direction rules of a second scroll processed
before the completion are therefore compared against the old anchor. -/
theorem anchor_split_update :
    (∀ (s : ReaderState) (number : Nat) (s' : ReaderState) (d : Decision),
        changeImage s number = some (s', d) →
        s'.currentNumber = number ∧
        s'.currentImageNumber = s.currentImageNumber) ∧
    (∀ (s : ReaderState) (candidate : Nat) (f : ForeAndAft) (image : Nat),
        (applyGetImage s candidate f image).currentImageNumber = candidate) := by
  constructor
  · intro s number s' d h
    exact ⟨changeImage_currentNumber h, changeImage_currentImageNumber h⟩
  · intro s candidate f image
    rfl

/-- instance of anchor_split_update on the scroll to candidate 5 from the
freshly filled page_count-20 state. -/
theorem anchor_split_update_witness :
    ({ initState 20 with currentNumber := 5 } : ReaderState).currentNumber = 5 ∧
    ({ initState 20 with currentNumber := 5 } : ReaderState).currentImageNumber
      = (initState 20).currentImageNumber :=
  anchor_split_update.1 (initState 20) 5 { initState 20 with currentNumber := 5 }
    (Decision.fetchForward 6) rfl

/-- C6: a second ChangeImage with the same candidate, issued right after a
successful one, is a NoOp: no fetch is decided and the state is returned
unchanged. -/
theorem changeImage_idempotent (s : ReaderState) (number : Nat)
    (s' : ReaderState) (d : Decision)
    (h : changeImage s number = some (s', d)) :
    changeImage s' number = some (s', Decision.noOp) := by
  have hcn : s'.currentNumber = number := changeImage_currentNumber h
  unfold changeImage
  rw [if_pos hcn.symm]

/-- instance of changeImage_idempotent: repeating candidate 5 on the
page_count-20 state. -/
theorem changeImage_idempotent_witness :
    changeImage { initState 20 with currentNumber := 5 } 5
      = some ({ initState 20 with currentNumber := 5 }, Decision.noOp) :=
  changeImage_idempotent (initState 20) 5 { initState 20 with currentNumber := 5 }
    (Decision.fetchForward 6) rfl

/-- C2 amended: for a candidate above the direction anchor (and distinct
from current_number), the decision is FetchForward(candidate + W/2) exactly
when the candidate lies in [2, page_count - 1) — the implemented guard, one
wider than the spec's [2, page_count - 2) — and NoOp otherwise; page_count
must be at least 1 or the guard's subtraction panics. -/
theorem changeImage_forward_guard (s : ReaderState) (info : MangaInfo) (number : Nat)
    (hinfo : s.info = some info) (hclient : s.client = some ())
    (hne : number ≠ s.currentNumber) (hgt : s.currentImageNumber < number)
    (hp : 1 ≤ info.pages) :
    (changeImage s number).map Prod.snd =
      some (if 2 ≤ number ∧ number < info.pages - 1 then
              Decision.fetchForward (number + BUFFER_LENGTH / 2)
            else Decision.noOp) := by
  simp only [changeImage, hinfo, hclient, if_neg hne, if_pos hgt, checkedSub_of_le hp]
  rw [apply_ite (Option.map Prod.snd)]
  split <;> rfl

/-- instance of changeImage_forward_guard: candidate 5 from the freshly
filled page_count-10 state, inside the implemented guard. -/
theorem changeImage_forward_guard_witness :
    (changeImage (initState 10) 5).map Prod.snd =
      some (if 2 ≤ 5 ∧ 5 < (mkInfo 10).pages - 1 then
              Decision.fetchForward (5 + BUFFER_LENGTH / 2)
            else Decision.noOp) :=
  changeImage_forward_guard (initState 10) (mkInfo 10) 5 rfl rfl (by decide)
    (by decide) (by decide)

/-- C3 amended: for a candidate below the direction anchor (and distinct
from current_number), the decision is FetchBackward(candidate - W/2) exactly
when the candidate lies in [1, page_count - 2) — the implemented guard, one
wider than the spec's [1, page_count - 3) — and NoOp otherwise; page_count
must be at least 2 or the guard's subtraction panics. -/
theorem changeImage_backward_guard (s : ReaderState) (info : MangaInfo) (number : Nat)
    (hinfo : s.info = some info) (hclient : s.client = some ())
    (hne : number ≠ s.currentNumber) (hlt : number < s.currentImageNumber)
    (hp : 2 ≤ info.pages) :
    (changeImage s number).map Prod.snd =
      some (if 1 ≤ number ∧ number < info.pages - 2 then
              Decision.fetchBackward (number - BUFFER_LENGTH / 2)
            else Decision.noOp) := by
  have hngt : ¬ s.currentImageNumber < number := by omega
  simp only [changeImage, hinfo, hclient, if_neg hne, if_neg hngt, if_pos hlt,
    checkedSub_of_le hp]
  split
  · next hguard =>
    rw [half_buffer, checkedSub_of_le hguard.1]
    rfl
  · rfl

/-- instance of changeImage_backward_guard: candidate 5 against anchor 9 on
a page_count-10 state, inside the implemented guard. -/
theorem changeImage_backward_guard_witness :
    (changeImage { initState 10 with currentImageNumber := 9, currentNumber := 9 } 5).map
        Prod.snd =
      some (if 1 ≤ 5 ∧ 5 < (mkInfo 10).pages - 2 then
              Decision.fetchBackward (5 - BUFFER_LENGTH / 2)
            else Decision.noOp) :=
  changeImage_backward_guard
    { initState 10 with currentImageNumber := 9, currentNumber := 9 }
    (mkInfo 10) 5 rfl rfl (by decide) (by decide) (by decide)

/-- C1: with page_count ≥ W = 3, an anchor inside [0, page_count), and a
window buffer of exactly W contents, the composer emits exactly page_count
slots whose heights sum to page_count * page_height. -/
theorem image_page_count_and_height (s : ReaderState) (info : MangaInfo)
    (hinfo : s.info = some info) (hp : 3 ≤ info.pages)
    (hanchor : s.currentImageNumber < info.pages)
    (hbuf : s.imageBuffer.length = BUFFER_LENGTH) :
    ∃ slots, image_page s = some slots ∧ slots.length = info.pages ∧
      (slots.map Slot.height).sum = info.pages * s.imageHeight := by
  obtain ⟨a, b, c, hab⟩ := List.length_eq_three.mp (by simpa [BUFFER_LENGTH] using hbuf)
  rcases Nat.lt_or_ge s.currentImageNumber 1 with h0 | h1
  · have heq : image_page s = some
        ([Slot.image a s.imageHeight, Slot.image b s.imageHeight,
            Slot.image c s.imageHeight] ++
          List.replicate (info.pages - BUFFER_LENGTH) (make_space s.imageHeight)) := by
      simp only [image_page, hab, hinfo, half_buffer, make_images_three]
      norm_num [BUFFER_LENGTH, h0]
    refine ⟨_, heq, ?_, ?_⟩
    · simp only [List.length_append, List.length_cons, List.length_nil,
        List.length_replicate, BUFFER_LENGTH]
      omega
    · obtain ⟨n, hn⟩ : ∃ n, info.pages = n + 3 := ⟨info.pages - 3, by omega⟩
      simp only [List.map_append, List.sum_append, spacer_sum, List.map_cons,
        List.map_nil, List.sum_cons, List.sum_nil, Slot.height, hn, BUFFER_LENGTH,
        Nat.add_sub_cancel]
      ring
  · by_cases hend : info.pages - 1 ≤ s.currentImageNumber
    · have heq : image_page s = some
          (List.replicate (info.pages - BUFFER_LENGTH) (make_space s.imageHeight) ++
            [Slot.image a s.imageHeight, Slot.image b s.imageHeight,
              Slot.image c s.imageHeight]) := by
        simp only [image_page, hab, hinfo, half_buffer, make_images_three,
          checkedSub_of_le (show 1 ≤ info.pages by omega),
          checkedSub_of_le (show BUFFER_LENGTH ≤ info.pages from hp)]
        norm_num [BUFFER_LENGTH]
        rw [if_neg (by omega : ¬ s.currentImageNumber = 0),
          if_pos (⟨by omega, hanchor⟩ :
            info.pages ≤ s.currentImageNumber + 1 ∧ s.currentImageNumber < info.pages)]
      refine ⟨_, heq, ?_, ?_⟩
      · simp only [List.length_append, List.length_cons, List.length_nil,
          List.length_replicate, BUFFER_LENGTH]
        omega
      · obtain ⟨n, hn⟩ : ∃ n, info.pages = n + 3 := ⟨info.pages - 3, by omega⟩
        simp only [List.map_append, List.sum_append, spacer_sum, List.map_cons,
          List.map_nil, List.sum_cons, List.sum_nil, Slot.height, hn, BUFFER_LENGTH,
          Nat.add_sub_cancel]
        ring
    · have hmid : s.currentImageNumber + 1 < info.pages := by omega
      have heq : image_page s = some
          (List.replicate (s.currentImageNumber - 1) (make_space s.imageHeight) ++
            [Slot.image a s.imageHeight, Slot.image b s.imageHeight,
              Slot.image c s.imageHeight] ++
            List.replicate (info.pages - (s.currentImageNumber + 2))
              (make_space s.imageHeight)) := by
        simp only [image_page, hab, hinfo, half_buffer, make_images_three,
          checkedSub_of_le (show 1 ≤ info.pages by omega),
          checkedSub_of_le h1]
        norm_num [BUFFER_LENGTH]
        rw [if_neg (by omega : ¬ s.currentImageNumber = 0),
          if_neg (by omega :
            ¬ (info.pages ≤ s.currentImageNumber + 1 ∧ s.currentImageNumber < info.pages))]
      refine ⟨_, heq, ?_, ?_⟩
      · simp only [List.length_append, List.length_cons, List.length_nil,
          List.length_replicate]
        omega
      · obtain ⟨m, hm⟩ : ∃ m, s.currentImageNumber = m + 1 :=
          ⟨s.currentImageNumber - 1, by omega⟩
        obtain ⟨k, hk⟩ : ∃ k, info.pages = s.currentImageNumber + 2 + k :=
          ⟨info.pages - (s.currentImageNumber + 2), by omega⟩
        simp only [List.map_append, List.sum_append, spacer_sum, List.map_cons,
          List.map_nil, List.sum_cons, List.sum_nil, Slot.height, hk, hm,
          Nat.add_sub_cancel, Nat.add_sub_cancel_left]
        ring

/-- instance of image_page_count_and_height: page_count 10, anchor 5,
buffer pages 0,1,2 (contents are irrelevant to counts and heights). -/
theorem image_page_count_and_height_witness :
    ∃ slots, image_page { initState 10 with currentImageNumber := 5 } = some slots ∧
      slots.length = (mkInfo 10).pages ∧
      (slots.map Slot.height).sum =
        (mkInfo 10).pages *
          ({ initState 10 with currentImageNumber := 5 } : ReaderState).imageHeight :=
  image_page_count_and_height { initState 10 with currentImageNumber := 5 }
    (mkInfo 10) rfl (by decide) (by decide) rfl

/-- with at least W pages the controller guards never underflow: ChangeImage
is total once metadata and connection are present. -/
theorem changeImage_total (s : ReaderState) (info : MangaInfo) (number : Nat)
    (hinfo : s.info = some info) (hclient : s.client = some ())
    (hp : 3 ≤ info.pages) :
    (changeImage s number).isSome := by
  by_cases hne : number = s.currentNumber
  · simp [changeImage, hne]
  · simp only [changeImage, hinfo, hclient, if_neg hne]
    by_cases hgt : s.currentImageNumber < number
    · simp only [if_pos hgt, checkedSub_of_le (show 1 ≤ info.pages by omega)]
      split <;> rfl
    · simp only [if_neg hgt]
      by_cases hlt : number < s.currentImageNumber
      · simp only [if_pos hlt, checkedSub_of_le (show 2 ≤ info.pages by omega)]
        split
        · next hguard =>
          rw [half_buffer, checkedSub_of_le hguard.1]
          rfl
        · rfl
      · simp only [if_neg hlt, Option.isSome_some]

/-- with at least W pages the composer subtractions never underflow:
image_page is total on a full buffer once metadata is present. -/
theorem image_page_total (s : ReaderState) (info : MangaInfo)
    (hinfo : s.info = some info) (hp : 3 ≤ info.pages)
    (hbuf : s.imageBuffer.length = BUFFER_LENGTH) :
    (image_page s).isSome := by
  obtain ⟨a, b, c, hab⟩ := List.length_eq_three.mp (by simpa [BUFFER_LENGTH] using hbuf)
  simp only [image_page, hab, hinfo, half_buffer, make_images_three,
    checkedSub_of_le (show 1 ≤ info.pages by omega),
    checkedSub_of_le (show BUFFER_LENGTH ≤ info.pages from hp)]
  norm_num [BUFFER_LENGTH]
  by_cases h0 : s.currentImageNumber = 0
  · rw [if_pos h0]
    rfl
  · rw [if_neg h0]
    split
    · rfl
    · rw [checkedSub_of_le (show 1 ≤ s.currentImageNumber by omega)]
      rfl

/-- C10: the controller guards and the composer, which evaluate
page_count - 1, page_count - 2, and page_count - W on unsigned arithmetic,
are total over all candidates, anchors, and full buffers exactly when
page_count ≥ W = 3: for every smaller page count some input makes one of
the subtractions underflow (panic). -/
theorem guards_total_iff_three_pages (pages : Nat) :
    ((∀ (info : MangaInfo) (s : ReaderState) (number : Nat),
        info.pages = pages → s.info = some info → s.client = some () →
        (changeImage s number).isSome) ∧
     (∀ (info : MangaInfo) (s : ReaderState),
        info.pages = pages → s.info = some info →
        s.imageBuffer.length = BUFFER_LENGTH →
        (image_page s).isSome))
    ↔ 3 ≤ pages := by
  constructor
  · rintro ⟨hA, hB⟩
    by_contra hlt
    push_neg at hlt
    interval_cases pages
    · exact absurd
        (hA (mkInfo 0) ⟨Page.info, some (), some (mkInfo 0), [], 1764, 0, 0⟩ 1
          rfl rfl rfl)
        (by decide)
    · exact absurd
        (hA (mkInfo 1) ⟨Page.info, some (), some (mkInfo 1), [], 1764, 1, 5⟩ 0
          rfl rfl rfl)
        (by decide)
    · exact absurd
        (hB (mkInfo 2) ⟨Page.info, some (), some (mkInfo 2), [0, 0, 0], 1764, 1, 0⟩
          rfl rfl rfl)
        (by decide)
  · intro hp
    refine ⟨fun info s number hpg hinfo hclient =>
        changeImage_total s info number hinfo hclient (by rw [hpg]; exact hp),
      fun info s hpg hinfo hbuf =>
        image_page_total s info hinfo (by rw [hpg]; exact hp) hbuf⟩

/-- instance of guards_total_iff_three_pages at page_count 5. -/
theorem guards_total_iff_three_pages_witness :
    (∀ (info : MangaInfo) (s : ReaderState) (number : Nat),
        info.pages = 5 → s.info = some info → s.client = some () →
        (changeImage s number).isSome) ∧
    (∀ (info : MangaInfo) (s : ReaderState),
        info.pages = 5 → s.info = some info →
        s.imageBuffer.length = BUFFER_LENGTH →
        (image_page s).isSome) :=
  (guards_total_iff_three_pages 5).mpr (by omega)
